import Mathlib

/-!
Shallow embedding of the Project Performance Valuation & Snapshot
Consistency Engine of `src/router.py` (backend_admin_staff).

Numeric values that the Python code handles as `float` are modelled as
rationals (`ℚ`); database tables are modelled as lists of records; the
SQLAlchemy session is modelled as a pair (committed state, pending state)
with `execute` acting on the pending state, `commit` publishing it and
`rollback` restoring the committed state.

Schema probes (`_table_exists` / `_column_exists` / `_table_columns`) are
fixed to the deployment the claims are about: `projects`,
`project_evaluations`, `project_completion_snapshots` (without the optional
`completed_by` column) and `project_completion_snapshot_items` (without the
optional `update_count` column) exist; the legacy `project_participants`,
`project_updates` and audit-snapshot tables do not, so the code paths that
touch them reduce to no-ops.
-/

/-- A Python value fed to `_trunc_1_decimal` (router.py:872-880): either a
value `float()` can convert (modelled as a rational) or a non-numeric value
for which `float()` raises, carried opaquely. -/
inductive PyVal where
  | num (q : ℚ)
  | nonNum (s : String)
deriving DecidableEq

/-- Python's `float(value)` as used in `_trunc_1_decimal`: succeeds exactly
on numeric values. -/
def pyFloat : PyVal → Option ℚ
  | .num q => some q
  | .nonNum _ => none

/-- The numeric core of `_trunc_1_decimal` (router.py:875-878):
`math.floor(x * 10) / 10` for `x >= 0`, `math.ceil(x * 10) / 10` otherwise. -/
def truncQ (x : ℚ) : ℚ :=
  if 0 ≤ x then ((⌊x * 10⌋ : ℤ) : ℚ) / 10 else ((⌈x * 10⌉ : ℤ) : ℚ) / 10

/-- `_trunc_1_decimal` (router.py:872-880): convert with `float`, truncate to
one decimal toward zero; on conversion failure the `except` branch returns
the input `value` unchanged. -/
def trunc_1_decimal (v : PyVal) : PyVal :=
  match pyFloat v with
  | some x => .num (truncQ x)
  | none => v

/-- The inline profit-rate computation of `update_project_admin_info`
(router.py:898): `math.floor(float(payload.profit_rate) * 10) / 10.0` —
plain floor, with no sign case. -/
def adminProfitRateStored (x : ℚ) : ℚ := ((⌊x * 10⌋ : ℤ) : ℚ) / 10

/-- Completed statuses of `_is_completed_status` (router.py:1435-1437) and
`_get_participant_scores` (router.py:156). -/
def completedStatuses : List String := ["DONE", "COMPLETED", "COMPLETE", "FINISHED", "CLOSED"]

/-- Python's `str.strip()`: drop leading and trailing whitespace (modelled
on the character list of the string). -/
def pyStrip (s : String) : String :=
  String.mk (((s.data.dropWhile Char.isWhitespace).reverse.dropWhile
    Char.isWhitespace).reverse)

/-- Python's `str.upper()` on the ASCII statuses the engine compares. -/
def pyUpper (s : String) : String := String.mk (s.data.map Char.toUpper)

/-- `_is_completed_status` (router.py:1435-1437): normalise `(status or
"").strip().upper()` and test membership in the completed-status set. -/
def isCompletedStatus (status : Option String) : Bool :=
  completedStatuses.contains (pyUpper (pyStrip (status.getD "")))

/-- `_pick_status` (router.py:45-57): first preferred status present in the
DB enum, else a valid fallback, else the last enum value; when the enum
lookup yields nothing, the fallback (if truthy) or the first preferred
status or "IN_PROGRESS". -/
def pickStatus (enumVals : List String) (preferred : List String)
    (fallback : Option String) : String :=
  if enumVals.isEmpty then
    match fallback with
    | some f => if f = "" then preferred.headD "IN_PROGRESS" else f
    | none => preferred.headD "IN_PROGRESS"
  else
    match preferred.find? (fun s => enumVals.contains s) with
    | some s => s
    | none =>
      match fallback with
      | some f => if f ≠ "" ∧ enumVals.contains f then f else enumVals.getLastD ""
      | none => enumVals.getLastD ""

/-- A row of `project_completion_snapshots` with the columns the engine
requires (router.py:1647): `project_id`, `final_project_score`, `is_active`
(plus the serial `id`; `completed_at` carries no logic and is omitted). -/
structure Snapshot where
  id : Nat
  project_id : Nat
  final_project_score : ℚ
  is_active : Bool
deriving DecidableEq

/-- A row of `project_completion_snapshot_items` with the required columns
(router.py:1648): `snapshot_id`, `user_id`, `user_eval_score`,
`converted_score` (`created_at` omitted, `update_count` column absent). -/
structure SnapshotItem where
  snapshot_id : Nat
  user_id : Int
  user_eval_score : ℚ
  converted_score : ℚ
deriving DecidableEq

/-- A row of `projects` restricted to the fields the modelled operations
read or write: `id` and `status`. -/
structure ProjectRow where
  id : Nat
  status : String
deriving DecidableEq

/-- A row of `project_evaluations` (router.py:1844): `project_id`,
`user_id`, `score`. -/
structure EvalRow where
  project_id : Nat
  user_id : Int
  score : ℚ
deriving DecidableEq

/-- The committed or pending database state: the four modelled tables plus
the serial-id source backing `RETURNING id` on snapshot inserts. -/
structure DB where
  projects : List ProjectRow
  evaluations : List EvalRow
  snapshots : List Snapshot
  items : List SnapshotItem
  nextSnapshotId : Nat
deriving DecidableEq

/-- A participant dict passed to `_save_project_completion_scores_snapshot`
(router.py:1674-1677): `user_id`, `score`, and an optional
`converted_score` defaulting to the score. -/
structure Participant where
  user_id : Int
  score : ℚ
  converted_score : Option ℚ
deriving DecidableEq

/-- `conv = float(p.get("converted_score") if ... is not None else score)`
(router.py:1677). -/
def convOf (p : Participant) : ℚ := p.converted_score.getD p.score

/-- The `safe_parts` filter (router.py:1678-1679): participants with
`uid <= 0` are skipped. -/
def safeParts (parts : List Participant) : List Participant :=
  parts.filter (fun p => 0 < p.user_id)

/-- The running `total += conv` over `safe_parts` (router.py:1673,1688):
the sum of the converted scores, with no truncation applied. -/
def totalConverted (parts : List Participant) : ℚ :=
  ((safeParts parts).map convOf).sum

/-- Step 1 of `_save_project_completion_scores_snapshot` (router.py:1690-
1701): `UPDATE project_completion_snapshots SET is_active = false WHERE
project_id = :pid AND is_active = true`. -/
def dbDeactivateActive (pid : Nat) (db : DB) : DB :=
  { db with
    snapshots := db.snapshots.map (fun s =>
      if s.project_id == pid && s.is_active then { s with is_active := false } else s) }

/-- Step 2 of `_save_project_completion_scores_snapshot` (router.py:1723-
1733): insert a new active snapshot row, drawing its id from the serial. -/
def dbInsertSnapshot (pid : Nat) (total : ℚ) (db : DB) : DB :=
  { db with
    snapshots := db.snapshots ++ [⟨db.nextSnapshotId, pid, total, true⟩],
    nextSnapshotId := db.nextSnapshotId + 1 }

/-- Step 3 of `_save_project_completion_scores_snapshot` (router.py:1766-
1783): insert one item row per safe participant. -/
def dbInsertItems (sid : Nat) (safe : List Participant) (db : DB) : DB :=
  { db with
    items := db.items ++ safe.map (fun p => ⟨sid, p.user_id, p.score, convOf p⟩) }

/-- The failure-free store-level effect of
`_save_project_completion_scores_snapshot` (router.py:1690-1791):
deactivate the project's active snapshots, then insert a new active
snapshot carrying the untruncated converted-score total, then insert the
item rows; returns the new snapshot id. -/
def dbSaveCompletionSnapshot (pid : Nat) (parts : List Participant) (db : DB) : Nat × DB :=
  let db1 := dbDeactivateActive pid db
  let sid := db1.nextSnapshotId
  let db2 := dbInsertSnapshot pid (totalConverted parts) db1
  (sid, dbInsertItems sid (safeParts parts) db2)

/-- The spec's `getActiveSnapshot(projectId)` read: the rows of
`project_completion_snapshots` with the given project id and
`is_active = true`. -/
def activeSnapshots (pid : Nat) (db : DB) : List Snapshot :=
  db.snapshots.filter (fun s => s.project_id == pid && s.is_active)

/-- The snapshot purge of `reopen_project` (router.py:2049-2068): delete
the items whose `snapshot_id` is among the project's snapshot ids, then
delete the project's snapshot rows. -/
def dbPurgeSnapshots (pid : Nat) (db : DB) : DB :=
  let sids := (db.snapshots.filter (fun s => s.project_id == pid)).map (fun s => s.id)
  { db with
    items := db.items.filter (fun it => !(sids.contains it.snapshot_id)),
    snapshots := db.snapshots.filter (fun s => !(s.project_id == pid)) }

/-- `UPDATE projects SET status = :new_status ... WHERE id = :id`
(router.py:1816-1825 and 2016-2019; the `end_date` / `updated_at` columns
carry no modelled logic). -/
def dbSetStatus (pid : Nat) (st : String) (db : DB) : DB :=
  { db with
    projects := db.projects.map (fun p => if p.id == pid then { p with status := st } else p) }

/-- `DELETE FROM project_evaluations WHERE project_id = :id`
(router.py:1830 and 2024). -/
def dbDeleteEvals (pid : Nat) (db : DB) : DB :=
  { db with evaluations := db.evaluations.filter (fun e => !(e.project_id == pid)) }

/-- A participant of the completion payload (router.py:1839):
`employee_id` and a 0-10 `score`. -/
structure PayloadParticipant where
  employee_id : Int
  score : ℚ
deriving DecidableEq

/-- The per-participant `INSERT INTO project_evaluations` loop
(router.py:1839-1859). -/
def dbInsertEvals (pid : Nat) (parts : List PayloadParticipant) (db : DB) : DB :=
  { db with
    evaluations := db.evaluations ++ parts.map (fun p => ⟨pid, p.employee_id, p.score⟩) }

/-- A SQLAlchemy session: the committed database state and the pending
state of the open transaction. `db.execute` mutates the pending state,
`db.commit` publishes it, `db.rollback` restores the committed state. -/
structure Session where
  committed : DB
  pending : DB
deriving DecidableEq

/-- Run a statement inside the open transaction. -/
def Session.exec (s : Session) (f : DB → DB) : Session :=
  ⟨s.committed, f s.pending⟩

/-- Publish the pending state (`db.commit()`). -/
def Session.commitTx (s : Session) : Session :=
  ⟨s.pending, s.pending⟩

/-- Discard the pending state (`db.rollback()`). -/
def Session.rollbackTx (s : Session) : Session :=
  ⟨s.committed, s.committed⟩

/-- Failure injection for `_save_project_completion_scores_snapshot`: which
of its three statements raises (the deactivate UPDATE, the snapshot INSERT,
the item INSERTs). -/
structure SnapshotFailure where
  deactivateRaises : Bool
  insertSnapshotRaises : Bool
  insertItemsRaises : Bool
deriving DecidableEq

/-- No statement raises. -/
def SnapshotFailure.none : SnapshotFailure := ⟨false, false, false⟩

/-- `_save_project_completion_scores_snapshot` (router.py:1690-1791) at the
session level, with failure injection mirroring its `except` branches:
a failed deactivate rolls back and continues to the insert
(router.py:1702-1707); a failed snapshot INSERT rolls back and returns
`None` (router.py:1735-1740); a failed item INSERT rolls back and returns
`None` (router.py:1784-1789). Every `db.rollback()` discards the whole
pending transaction, including statements issued by the caller. -/
def saveCompletionScoresSnapshotTx (fail : SnapshotFailure) (pid : Nat)
    (parts : List Participant) (sess : Session) : Option Nat × Session :=
  let sess1 := if fail.deactivateRaises then sess.rollbackTx
    else sess.exec (dbDeactivateActive pid)
  if fail.insertSnapshotRaises then (Option.none, sess1.rollbackTx)
  else
    let sid := sess1.pending.nextSnapshotId
    let sess2 := sess1.exec (dbInsertSnapshot pid (totalConverted parts))
    if fail.insertItemsRaises then (Option.none, sess2.rollbackTx)
    else (some sid, sess2.exec (dbInsertItems sid (safeParts parts)))

/-- The preferred completion statuses of `complete_project`
(router.py:1813). -/
def completePreferred : List String :=
  ["COMPLETED", "DONE", "FINISHED", "COMPLETE", "CLOSED"]

/-- `complete_project` (router.py:1794-1931) on the modelled schema:
pick the completion status, UPDATE the project's status, replace the
project's `project_evaluations` rows, run the completion-scores snapshot
helper (the audit-snapshot tables are absent, so `_save_project_snapshot`
is a no-op), then `db.commit()`; the endpoint answers ok regardless of
snapshot failures. The status UPDATE is only committed by the final
commit. -/
def complete_project (enumVals : List String) (fail : SnapshotFailure)
    (pid : Nat) (parts : List PayloadParticipant) (sess : Session) :
    Bool × Session :=
  let newStatus := pickStatus enumVals completePreferred (some "DONE")
  let sess1 := sess.exec (dbSetStatus pid newStatus)
  let sess2 := sess1.exec (dbDeleteEvals pid)
  let sess3 := sess2.exec (dbInsertEvals pid parts)
  let snapParts := parts.map (fun p => Participant.mk p.employee_id p.score Option.none)
  let sess4 := (saveCompletionScoresSnapshotTx fail pid snapParts sess3).2
  (true, sess4.commitTx)

/-- `reopen_project` (router.py:1989-2084) on the modelled schema: set the
status back to "IN_PROGRESS" and commit that immediately (router.py:2016-
2020), then delete the project's evaluations and purge its completion
snapshots and items (router.py:2049-2068); a cleanup failure rolls back
only the uncommitted cleanup (router.py:2069-2074); final commit. The
endpoint answers ok in every case. -/
def reopen_project (cleanupRaises : Bool) (pid : Nat) (sess : Session) :
    Bool × Session :=
  let sess1 := (sess.exec (dbSetStatus pid "IN_PROGRESS")).commitTx
  let sess2 := sess1.exec (dbDeleteEvals pid)
  let sess3 := if cleanupRaises then sess2.rollbackTx
    else sess2.exec (dbPurgeSnapshots pid)
  (true, sess3.commitTx)

/-- A `ParticipantScoreOut` row (router.py:211-219): employee id and the
score, hidden (`None`) when the caller may not view scores (the
`employee_name` join carries no modelled logic). -/
structure ParticipantScoreOut where
  employee_id : Int
  score : Option ℚ
deriving DecidableEq

/-- `_get_participant_scores` (router.py:149-220) on the modelled schema:
when a status is supplied and it is not a completed status, return the
empty list before touching any table; otherwise read the project's
`project_evaluations` rows (the row order of `ORDER BY user_id` is not
modelled; no claim here depends on it) and expose each score only to
callers allowed to view scores. -/
def getParticipantScores (db : DB) (pid : Nat) (canViewScores : Bool)
    (projectStatus : Option String) : List ParticipantScoreOut :=
  if projectStatus.isSome && !(isCompletedStatus projectStatus) then []
  else
    (db.evaluations.filter (fun e => e.project_id == pid)).map
      (fun e => ⟨e.user_id, if canViewScores then some e.score else Option.none⟩)

/-- The fields of `ProjectDetailOut` the claims are about
(router.py:1127-1158): id, status, participant scores and their count. -/
structure ProjectDetailOut where
  id : Nat
  status : String
  participant_scores : List ParticipantScoreOut
  participant_count : Nat
deriving DecidableEq

/-- `get_project_detail` (router.py:1126-1158) restricted to the modelled
fields: 404 (`Option.none`) when the project row is absent, else build the
detail with `participant_scores = _get_participant_scores(..., project_status
= r.status)` and `participant_count = len(scores)`; the score-view
permission (admin or creator, router.py:1117-1124) enters as a boolean. -/
def get_project_detail (db : DB) (canViewScores : Bool) (pid : Nat) :
    Option ProjectDetailOut :=
  match db.projects.find? (fun p => p.id == pid) with
  | Option.none => Option.none
  | some p =>
    let scores := getParticipantScores db pid canViewScores (some p.status)
    some ⟨p.id, p.status, scores, scores.length⟩

/-- The at-most-one-active-snapshot-per-project invariant of the spec. -/
def atMostOneActive (db : DB) : Prop :=
  ∀ pid : Nat, (activeSnapshots pid db).length ≤ 1

/-- The concrete database of the C10 witness: one in-progress project that
does hold an evaluation row. -/
def sampleDetailDb : DB := ⟨[⟨1, "IN_PROGRESS"⟩], [⟨1, 2, 5⟩], [], [], 1⟩

/-! ## Lemmas about the truncation utility -/

/-- Truncation never grows the magnitude: the truncated value stays between
zero and the input. -/
theorem truncQ_abs_le (x : ℚ) : |truncQ x| ≤ |x| := by
  by_cases h : 0 ≤ x
  · rw [truncQ, if_pos h]
    have hf : (0:ℤ) ≤ ⌊x * 10⌋ := Int.floor_nonneg.mpr (by positivity)
    have hle : ((⌊x * 10⌋ : ℤ) : ℚ) / 10 ≤ x := by
      rw [div_le_iff₀ (by norm_num : (0:ℚ) < 10)]
      exact Int.floor_le _
    rw [abs_of_nonneg h, abs_of_nonneg (by positivity)]
    exact hle
  · push_neg at h
    rw [truncQ, if_neg (not_le.mpr h)]
    have hc : ⌈x * 10⌉ ≤ 0 := Int.ceil_le.mpr (by push_cast; nlinarith)
    have hge : x ≤ ((⌈x * 10⌉ : ℤ) : ℚ) / 10 := by
      rw [le_div_iff₀ (by norm_num : (0:ℚ) < 10)]
      exact Int.le_ceil _
    have hnp : ((⌈x * 10⌉ : ℤ) : ℚ) / 10 ≤ 0 := by
      apply div_nonpos_of_nonpos_of_nonneg _ (by norm_num)
      exact_mod_cast hc
    rw [abs_of_nonpos h.le, abs_of_nonpos hnp]
    exact neg_le_neg hge

/-- Truncation chops off less than one tenth of the magnitude: it never
jumps past the next tenth (so, in particular, it never rounds away from
zero). -/
theorem truncQ_abs_gt (x : ℚ) : |x| - 1/10 < |truncQ x| := by
  by_cases h : 0 ≤ x
  · rw [truncQ, if_pos h]
    have hf : (0:ℤ) ≤ ⌊x * 10⌋ := Int.floor_nonneg.mpr (by positivity)
    have hlt : x - 1/10 < ((⌊x * 10⌋ : ℤ) : ℚ) / 10 := by
      rw [lt_div_iff₀ (by norm_num : (0:ℚ) < 10)]
      have := Int.sub_one_lt_floor (x * 10)
      nlinarith
    rw [abs_of_nonneg h, abs_of_nonneg (by positivity)]
    exact hlt
  · push_neg at h
    rw [truncQ, if_neg (not_le.mpr h)]
    have hc : ⌈x * 10⌉ ≤ 0 := Int.ceil_le.mpr (by push_cast; nlinarith)
    have hlt : ((⌈x * 10⌉ : ℤ) : ℚ) / 10 < x + 1/10 := by
      rw [div_lt_iff₀ (by norm_num : (0:ℚ) < 10)]
      have := Int.ceil_lt_add_one (x * 10)
      nlinarith
    have hnp : ((⌈x * 10⌉ : ℤ) : ℚ) / 10 ≤ 0 := by
      apply div_nonpos_of_nonpos_of_nonneg _ (by norm_num)
      exact_mod_cast hc
    rw [abs_of_nonpos h.le, abs_of_nonpos hnp]
    linarith

/-- The truncated value is an integer number of tenths. -/
theorem truncQ_exists_tenth (x : ℚ) : ∃ n : ℤ, truncQ x = (n : ℚ) / 10 := by
  by_cases h : 0 ≤ x
  · exact ⟨⌊x * 10⌋, by rw [truncQ, if_pos h]⟩
  · exact ⟨⌈x * 10⌉, by rw [truncQ, if_neg h]⟩

/-- Truncating an integer number of tenths returns it unchanged. -/
theorem truncQ_intCast_div_ten (n : ℤ) : truncQ ((n : ℚ) / 10) = (n : ℚ) / 10 := by
  have hmul : ((n : ℚ) / 10) * 10 = (n : ℚ) := by
    field_simp
  by_cases h : 0 ≤ (n : ℚ) / 10
  · rw [truncQ, if_pos h, hmul, Int.floor_intCast]
  · rw [truncQ, if_neg h, hmul, Int.ceil_intCast]

/-- Concrete value: truncating 12.37 gives 12.3. -/
theorem truncQ_pos_example : truncQ (1237/100) = 123/10 := by
  rw [truncQ, if_pos (by norm_num : (0:ℚ) ≤ 1237/100),
    show ⌊(1237:ℚ)/100 * 10⌋ = 123 from Int.floor_eq_iff.mpr (by norm_num)]
  norm_num

/-- Concrete value: truncating -12.37 gives -12.3 (toward zero). -/
theorem truncQ_neg_example : truncQ (-(1237/100)) = -(123/10) := by
  rw [truncQ, if_neg (by norm_num : ¬ (0:ℚ) ≤ -(1237/100)),
    show ⌈-((1237:ℚ)/100) * 10⌉ = -123 from Int.ceil_eq_iff.mpr (by norm_num)]
  norm_num

/-- Concrete value: the admin-info profit-rate path floors -12.37 down to
-12.4. -/
theorem adminProfitRateStored_neg_example :
    adminProfitRateStored (-(1237/100)) = -(124/10) := by
  rw [adminProfitRateStored,
    show ⌊-((1237:ℚ)/100) * 10⌋ = -124 from Int.floor_eq_iff.mpr (by norm_num)]
  norm_num

/-! ## Lemmas about the snapshot store -/

/-- After the deactivate UPDATE, no snapshot of the project is active. -/
theorem filter_deactivate_self (pid : Nat) (l : List Snapshot) :
    (l.map (fun s =>
        if s.project_id == pid && s.is_active then { s with is_active := false } else s)).filter
      (fun s => s.project_id == pid && s.is_active) = [] := by
  induction l with
  | nil => rfl
  | cons a l ih =>
    by_cases h : (a.project_id == pid && a.is_active) = true
    · simp only [List.map_cons, if_pos h]
      rw [List.filter_cons_of_neg (by simp)]
      exact ih
    · simp only [List.map_cons, if_neg h]
      rw [List.filter_cons_of_neg (by simpa using h)]
      exact ih

/-- The deactivate UPDATE leaves the snapshots of every other project
untouched, as seen by any filter that fixes another project id. -/
theorem filter_deactivate_other (p pid : Nat) (hne : p ≠ pid) (l : List Snapshot) :
    (l.map (fun s =>
        if s.project_id == pid && s.is_active then { s with is_active := false } else s)).filter
      (fun s => s.project_id == p && s.is_active) =
      l.filter (fun s => s.project_id == p && s.is_active) := by
  induction l with
  | nil => rfl
  | cons a l ih =>
    by_cases h : (a.project_id == pid && a.is_active) = true
    · have hpid : a.project_id = pid := by
        have h2 := (Bool.and_eq_true _ _).mp h
        simpa using h2.1
      have hnp : (a.project_id == p) = false := by
        simp [hpid]
        exact fun hEq => hne hEq.symm
      simp only [List.map_cons, if_pos h]
      rw [List.filter_cons_of_neg (by simp [hnp]),
        List.filter_cons_of_neg (by simp [hnp])]
      exact ih
    · simp only [List.map_cons, if_neg h, List.filter_cons]
      rw [ih]

/-- `activeSnapshots` after a full `createSnapshot`: exactly the freshly
inserted record. -/
theorem activeSnapshots_save_self (pid : Nat) (parts : List Participant) (db : DB) :
    activeSnapshots pid (dbSaveCompletionSnapshot pid parts db).2 =
      [⟨(dbSaveCompletionSnapshot pid parts db).1, pid, totalConverted parts, true⟩] := by
  simp only [dbSaveCompletionSnapshot, dbInsertItems, dbInsertSnapshot, dbDeactivateActive,
    activeSnapshots]
  rw [List.filter_append, filter_deactivate_self pid db.snapshots,
    List.filter_cons_of_pos (by simp)]
  rfl

/-- `activeSnapshots` of any other project after a `createSnapshot`:
unchanged. -/
theorem activeSnapshots_save_other (p pid : Nat) (hne : p ≠ pid)
    (parts : List Participant) (db : DB) :
    activeSnapshots p (dbSaveCompletionSnapshot pid parts db).2 =
      activeSnapshots p db := by
  simp only [dbSaveCompletionSnapshot, dbInsertItems, dbInsertSnapshot, dbDeactivateActive,
    activeSnapshots]
  rw [List.filter_append, filter_deactivate_other p pid hne db.snapshots,
    List.filter_cons_of_neg (by
      simp
      exact fun hEq => hne hEq.symm)]
  simp

/-- Purging removes every snapshot of the project, active or not. -/
theorem filter_purge_self (pid : Nat) (db : DB) :
    (dbPurgeSnapshots pid db).snapshots.filter (fun s => s.project_id == pid) = [] := by
  apply List.filter_eq_nil_iff.mpr
  intro s hs
  have := List.of_mem_filter hs
  simpa using this

/-- `activeSnapshots` of the purged project is empty. -/
theorem activeSnapshots_purge_self (pid : Nat) (db : DB) :
    activeSnapshots pid (dbPurgeSnapshots pid db) = [] := by
  apply List.filter_eq_nil_iff.mpr
  intro s hs
  have h1 := List.of_mem_filter hs
  simp only [Bool.not_eq_true'] at h1
  simp [h1]

/-- `activeSnapshots` of any other project shrinks or stays the same under
a purge. -/
theorem activeSnapshots_purge_le (p pid : Nat) (db : DB) :
    (activeSnapshots p (dbPurgeSnapshots pid db)).length ≤
      (activeSnapshots p db).length :=
  List.Sublist.length_le ((List.filter_sublist db.snapshots).filter _)

/-! ## Claims about the snapshot store -/

/-- C1: the snapshot-store operations preserve the at-most-one-active-
snapshot-per-project invariant: completing a project deactivates the
project's active snapshots before inserting the single new active one, and
reopening removes all of the project's snapshots. -/
theorem snapshot_ops_preserve_at_most_one_active
    (db : DB) (pid : Nat) (parts : List Participant)
    (h : atMostOneActive db) :
    atMostOneActive (dbSaveCompletionSnapshot pid parts db).2 ∧
    atMostOneActive (dbPurgeSnapshots pid db) := by
  constructor
  · intro p
    by_cases hp : p = pid
    · subst hp
      rw [activeSnapshots_save_self]
      exact le_refl 1
    · rw [activeSnapshots_save_other p pid hp]
      exact h p
  · intro p
    exact le_trans (activeSnapshots_purge_le p pid db) (h p)

/-- C1 witness: a store holding one active snapshot for project 1
satisfies the invariant, and both operations keep it. -/
theorem snapshot_ops_preserve_at_most_one_active_witness :
    atMostOneActive
      (dbSaveCompletionSnapshot 1 [⟨2, 5, Option.none⟩]
        ⟨[], [], [⟨1, 1, 10, true⟩], [], 2⟩).2 ∧
    atMostOneActive (dbPurgeSnapshots 1 ⟨[], [], [⟨1, 1, 10, true⟩], [], 2⟩) :=
  snapshot_ops_preserve_at_most_one_active
    ⟨[], [], [⟨1, 1, 10, true⟩], [], 2⟩ 1 [⟨2, 5, Option.none⟩]
    (fun pid => le_trans (List.length_filter_le _ _) (by decide))

/-- C3: once `createSnapshot` succeeds, the active-snapshot lookup for the
project returns exactly one record — the one just created, carrying the
returned id and the computed total — the store has grown by exactly one
row, and every previously active snapshot of the project is still present
with `is_active = false` (deactivated, not deleted). -/
theorem createSnapshot_unique_active_and_deactivates
    (db : DB) (pid : Nat) (parts : List Participant) :
    activeSnapshots pid (dbSaveCompletionSnapshot pid parts db).2 =
      [⟨(dbSaveCompletionSnapshot pid parts db).1, pid, totalConverted parts, true⟩] ∧
    (dbSaveCompletionSnapshot pid parts db).2.snapshots.length =
      db.snapshots.length + 1 ∧
    (∀ s ∈ db.snapshots, s.project_id = pid → s.is_active = true →
      { s with is_active := false } ∈ (dbSaveCompletionSnapshot pid parts db).2.snapshots) := by
  refine ⟨activeSnapshots_save_self pid parts db, ?_, ?_⟩
  · simp only [dbSaveCompletionSnapshot, dbInsertItems, dbInsertSnapshot, dbDeactivateActive]
    rw [List.length_append, List.length_map]
    rfl
  · intro s hs hpid hact
    simp only [dbSaveCompletionSnapshot, dbInsertItems, dbInsertSnapshot, dbDeactivateActive]
    apply List.mem_append_left
    exact List.mem_map.mpr ⟨s, hs, by simp [hpid, hact]⟩

/-- C3 witness: creating a snapshot over a store holding an active
snapshot for the same project yields the new record as the only active
one, grows the store to two rows, and keeps the old record inactive. -/
theorem createSnapshot_unique_active_and_deactivates_witness :
    activeSnapshots 1
        (dbSaveCompletionSnapshot 1 [⟨2, 5, Option.none⟩]
          ⟨[], [], [⟨1, 1, 10, true⟩], [], 2⟩).2 =
      [⟨(dbSaveCompletionSnapshot 1 [⟨2, 5, Option.none⟩]
          ⟨[], [], [⟨1, 1, 10, true⟩], [], 2⟩).1, 1,
        totalConverted [⟨2, 5, Option.none⟩], true⟩] ∧
    (dbSaveCompletionSnapshot 1 [⟨2, 5, Option.none⟩]
        ⟨[], [], [⟨1, 1, 10, true⟩], [], 2⟩).2.snapshots.length = 2 ∧
    Snapshot.mk 1 1 10 false ∈
      (dbSaveCompletionSnapshot 1 [⟨2, 5, Option.none⟩]
        ⟨[], [], [⟨1, 1, 10, true⟩], [], 2⟩).2.snapshots := by
  obtain ⟨h1, h2, h3⟩ := createSnapshot_unique_active_and_deactivates
    ⟨[], [], [⟨1, 1, 10, true⟩], [], 2⟩ 1 [⟨2, 5, Option.none⟩]
  exact ⟨h1, h2, h3 ⟨1, 1, 10, true⟩ (by decide) rfl rfl⟩

/-- C4 counterexample: completing with one participant whose converted
score is 1.26 stores 1.26 itself as the snapshot's final score, while the
one-decimal truncation of the item sum is 1.2. -/
theorem snapshot_final_score_not_truncated_counterexample :
    (activeSnapshots 1
        (dbSaveCompletionSnapshot 1 [⟨1, 63/50, Option.none⟩]
          ⟨[], [], [], [], 1⟩).2).map (fun s => s.final_project_score) = [63/50] ∧
    truncQ (63/50) = 6/5 ∧ ((63 : ℚ)/50) ≠ 6/5 := by
  refine ⟨?_, ?_, by norm_num⟩
  · rw [activeSnapshots_save_self]
    simp [totalConverted, safeParts, convOf]
  · rw [truncQ, if_pos (by norm_num : (0:ℚ) ≤ 63/50),
      show ⌊(63:ℚ)/50 * 10⌋ = 12 from Int.floor_eq_iff.mpr (by norm_num)]
    norm_num

/-- C4 (amended): the `finalProjectScore` stored in the completion
snapshot is the raw, untruncated sum of the items' converted scores. -/
theorem snapshot_final_score_is_raw_sum
    (db : DB) (pid : Nat) (parts : List Participant) :
    (activeSnapshots pid (dbSaveCompletionSnapshot pid parts db).2).map
      (fun s => s.final_project_score) = [((safeParts parts).map convOf).sum] := by
  rw [activeSnapshots_save_self]
  rfl

/-- After the purge, no remaining item points at any of the snapshot ids
the project owned. -/
theorem purge_items_gone (pid : Nat) (db : DB) :
    (dbPurgeSnapshots pid db).items.filter
      (fun it => ((db.snapshots.filter (fun s => s.project_id == pid)).map
        (fun s => s.id)).contains it.snapshot_id) = [] := by
  show (List.filter _ (List.filter _ db.items)) = []
  rw [List.filter_filter]
  simp

/-! ## Claims about the status-transition endpoints -/

/-- C2: evaluation of the code at the failing input — on a project in
status IN_PROGRESS, a `complete_project` call whose snapshot INSERT raises
still answers ok, but its committed project status is IN_PROGRESS, not the
completion status: the helper's rollback discards the uncommitted status
UPDATE. Without the failure the committed status is DONE, and a
`reopen_project` call whose snapshot cleanup raises still commits
IN_PROGRESS because reopen commits the status first. -/
theorem complete_status_rollback_on_snapshot_failure :
    (complete_project ["PLANNING", "IN_PROGRESS", "ON_HOLD", "DONE", "CLOSED"]
        ⟨false, true, false⟩ 1 [⟨2, 5⟩]
        ⟨⟨[⟨1, "IN_PROGRESS"⟩], [], [], [], 1⟩,
         ⟨[⟨1, "IN_PROGRESS"⟩], [], [], [], 1⟩⟩).1 = true ∧
    (complete_project ["PLANNING", "IN_PROGRESS", "ON_HOLD", "DONE", "CLOSED"]
        ⟨false, true, false⟩ 1 [⟨2, 5⟩]
        ⟨⟨[⟨1, "IN_PROGRESS"⟩], [], [], [], 1⟩,
         ⟨[⟨1, "IN_PROGRESS"⟩], [], [], [], 1⟩⟩).2.committed.projects =
      [⟨1, "IN_PROGRESS"⟩] ∧
    (complete_project ["PLANNING", "IN_PROGRESS", "ON_HOLD", "DONE", "CLOSED"]
        SnapshotFailure.none 1 [⟨2, 5⟩]
        ⟨⟨[⟨1, "IN_PROGRESS"⟩], [], [], [], 1⟩,
         ⟨[⟨1, "IN_PROGRESS"⟩], [], [], [], 1⟩⟩).2.committed.projects =
      [⟨1, "DONE"⟩] ∧
    (reopen_project true 1
        ⟨⟨[⟨1, "DONE"⟩], [], [⟨1, 1, 10, true⟩], [], 2⟩,
         ⟨[⟨1, "DONE"⟩], [], [⟨1, 1, 10, true⟩], [], 2⟩⟩).2.committed.projects =
      [⟨1, "IN_PROGRESS"⟩] :=
  ⟨rfl, by decide, by decide, by decide⟩

/-- C9: a successful reopen answers ok and, in its committed state, the
project has no active snapshot, no snapshot rows at all, no item row
pointing at any of its former snapshots, and every project row with the
reopened id carries status IN_PROGRESS. -/
theorem reopen_purges_snapshots_and_reverts_status (db : DB) (pid : Nat) :
    (reopen_project false pid ⟨db, db⟩).1 = true ∧
    activeSnapshots pid (reopen_project false pid ⟨db, db⟩).2.committed = [] ∧
    (reopen_project false pid ⟨db, db⟩).2.committed.snapshots.filter
      (fun s => s.project_id == pid) = [] ∧
    (reopen_project false pid ⟨db, db⟩).2.committed.items.filter
      (fun it => ((db.snapshots.filter (fun s => s.project_id == pid)).map
        (fun s => s.id)).contains it.snapshot_id) = [] ∧
    (reopen_project false pid ⟨db, db⟩).2.committed.projects.filter
      (fun p => p.id == pid && !(p.status == "IN_PROGRESS")) = [] := by
  refine ⟨rfl, activeSnapshots_purge_self pid _, filter_purge_self pid _,
    purge_items_gone pid _, ?_⟩
  show (List.filter _ (db.projects.map _)) = []
  apply List.filter_eq_nil_iff.mpr
  intro p hp
  obtain ⟨q, hq, rfl⟩ := List.mem_map.mp hp
  by_cases hb : (q.id == pid) = true
  · rw [if_pos hb]
    simp
  · rw [if_neg hb]
    have hb2 : (q.id == pid) = false := by simpa using hb
    simp [hb2]

/-- C10: when the project's status is not a completed status, the project
detail carries an empty participant-score list and a participant count of
0, whatever evaluation rows the database stores for the project. -/
theorem project_detail_empty_before_completion
    (db : DB) (canView : Bool) (pid : Nat) (p : ProjectRow) (d : ProjectDetailOut)
    (hfind : db.projects.find? (fun q => q.id == pid) = some p)
    (hstat : isCompletedStatus (some p.status) = false)
    (hdet : get_project_detail db canView pid = some d) :
    d.participant_scores = [] ∧ d.participant_count = 0 := by
  have hcond : ((some p.status).isSome && !(isCompletedStatus (some p.status))) = true := by
    simp [hstat]
  have hscores : getParticipantScores db pid canView (some p.status) = [] := by
    unfold getParticipantScores
    rw [if_pos hcond]
  simp only [get_project_detail, hfind, hscores] at hdet
  have hd := (Option.some.inj hdet).symm
  subst hd
  exact ⟨rfl, rfl⟩

/-- C10 witness: on a concrete in-progress project with a stored
evaluation row, the detail endpoint reports no participant scores and a
participant count of 0. -/
theorem project_detail_empty_before_completion_witness :
    sampleDetailDb.projects.find? (fun q => q.id == 1) = some ⟨1, "IN_PROGRESS"⟩ ∧
    isCompletedStatus (some "IN_PROGRESS") = false ∧
    get_project_detail sampleDetailDb true 1 = some ⟨1, "IN_PROGRESS", [], 0⟩ ∧
    (ProjectDetailOut.mk 1 "IN_PROGRESS" [] 0).participant_scores = [] ∧
    (ProjectDetailOut.mk 1 "IN_PROGRESS" [] 0).participant_count = 0 := by
  have h := project_detail_empty_before_completion sampleDetailDb true 1
    ⟨1, "IN_PROGRESS"⟩ ⟨1, "IN_PROGRESS", [], 0⟩ (by decide) (by decide) (by decide)
  exact ⟨by decide, by decide, by decide, h.1, h.2⟩

/-- C5: the one-decimal truncation utility truncates toward zero for every
numeric input: it multiplies by 10, applies floor for non-negative values
and ceiling for negative values, and divides by 10; the result never grows
the magnitude and never loses a full tenth of it (so it never rounds), and
truncate(12.37) = 12.3 while truncate(-12.37) = -12.3. -/
theorem trunc_1_decimal_toward_zero :
    (∀ x : ℚ, trunc_1_decimal (PyVal.num x) =
      PyVal.num (if 0 ≤ x then ((⌊x * 10⌋ : ℤ) : ℚ) / 10
        else ((⌈x * 10⌉ : ℤ) : ℚ) / 10)) ∧
    (∀ x : ℚ, |truncQ x| ≤ |x|) ∧
    (∀ x : ℚ, |x| - 1/10 < |truncQ x|) ∧
    (∀ x : ℚ, ∃ n : ℤ, truncQ x = (n : ℚ) / 10) ∧
    truncQ (1237/100) = 123/10 ∧ truncQ (-(1237/100)) = -(123/10) :=
  ⟨fun _ => rfl, truncQ_abs_le, truncQ_abs_gt, truncQ_exists_tenth,
    truncQ_pos_example, truncQ_neg_example⟩

/-- C6: the one-decimal truncation utility is idempotent — on every input,
numeric or not, applying `_trunc_1_decimal` twice equals applying it
once. -/
theorem trunc_1_decimal_idempotent :
    ∀ v : PyVal, trunc_1_decimal (trunc_1_decimal v) = trunc_1_decimal v := by
  intro v
  cases v with
  | num q =>
    obtain ⟨n, hn⟩ := truncQ_exists_tenth q
    show PyVal.num (truncQ (truncQ q)) = PyVal.num (truncQ q)
    rw [hn, truncQ_intCast_div_ten]
  | nonNum s => rfl

/-- C7: evaluation of the code at the failing input — the profit-rate value
saved by `update_project_admin_info` applies a plain floor, so at -12.37 it
stores -12.4, while the module's own toward-zero truncation rule gives
-12.3. -/
theorem admin_profit_rate_plain_floor :
    adminProfitRateStored (-(1237/100)) = -(124/10) ∧
    truncQ (-(1237/100)) = -(123/10) ∧
    adminProfitRateStored (-(1237/100)) ≠ truncQ (-(1237/100)) := by
  refine ⟨adminProfitRateStored_neg_example, truncQ_neg_example, ?_⟩
  rw [adminProfitRateStored_neg_example, truncQ_neg_example]
  norm_num

/-- C8 counterexample: on the non-numeric input "abc" the truncation
utility returns the input unchanged, which is not the numeric value 0 the
claim requires. -/
theorem trunc_1_decimal_nonnumeric_counterexample :
    trunc_1_decimal (PyVal.nonNum "abc") = PyVal.nonNum "abc" ∧
    PyVal.nonNum "abc" ≠ PyVal.num 0 :=
  ⟨rfl, by decide⟩

/-- C8 (amended): the truncation utility never raises — it is a total
function that truncates every numeric input and returns every non-numeric
input unchanged (rather than coercing it to 0). -/
theorem trunc_1_decimal_total_behavior :
    ∀ v : PyVal,
      (∃ q : ℚ, v = PyVal.num q ∧ trunc_1_decimal v = PyVal.num (truncQ q)) ∨
      (pyFloat v = Option.none ∧ trunc_1_decimal v = v) := by
  intro v
  cases v with
  | num q => exact Or.inl ⟨q, rfl, rfl⟩
  | nonNum s => exact Or.inr ⟨rfl, rfl⟩
